import Mathlib

/-!
Verification of the combined teleop program
(`src/teleop_demo/combined_teleop.py`).

The program is embedded shallowly: the key-binding tables become
association lists, the node state becomes a structure of exact rationals
(the Python floats here only carry small decimal values, so exact
rational arithmetic models the intended real-number semantics), one
iteration of the main loop body becomes a pure step function
`stepIter : RobotState → String → RobotState × Bool` (the Bool is the
`break` signal), and the publish / teardown effects become message
values and event traces.
-/

/-- Key mappings for robot base movement (`MOVE_BINDINGS` in the source):
token ↦ (x, y, z, th). -/
def MOVE_BINDINGS : List (String × (Int × Int × Int × Int)) :=
  [("i", (1, 0, 0, 0)), ("o", (1, 0, 0, -1)), ("j", (0, 0, 0, 1)), ("l", (0, 0, 0, -1)),
   ("u", (1, 0, 0, 1)), (",", (-1, 0, 0, 0)), (".", (-1, 0, 0, 1)), ("m", (-1, 0, 0, -1)),
   ("O", (1, -1, 0, 0)), ("I", (1, 0, 0, 0)), ("J", (0, 1, 0, 0)), ("L", (0, -1, 0, 0)),
   ("U", (1, 1, 0, 0)), ("<", (-1, 0, 0, 0)), (">", (-1, -1, 0, 0)), ("M", (-1, 1, 0, 0)),
   ("t", (0, 0, 1, 0)), ("b", (0, 0, -1, 0))]

/-- Key mappings for adjusting robot speed (`SPEED_BINDINGS` in the source):
token ↦ (linear factor, angular factor). -/
def SPEED_BINDINGS : List (String × (ℚ × ℚ)) :=
  [("q", (11/10, 11/10)), ("z", (9/10, 9/10)), ("w", (11/10, 1)), ("x", (9/10, 1)),
   ("e", (1, 11/10)), ("c", (1, 9/10))]

/-- Arrow-key escape-sequence mappings (`PTU_BINDINGS` in the source):
token ↦ (pan delta sign, tilt delta sign). -/
def PTU_BINDINGS : List (String × (Int × Int)) :=
  [("\x1b[A", (0, -1)), ("\x1b[B", (0, 1)), ("\x1b[D", (1, 0)), ("\x1b[C", (-1, 0))]

/-- PTU per-press step in degrees (`self.ptu_step = 2.0`). -/
def ptu_step : ℚ := 2

/-- Pan upper limit (`self.max_pan = 55.0`). -/
def max_pan : ℚ := 55

/-- Pan lower limit (`self.min_pan = -55.0`). -/
def min_pan : ℚ := -55

/-- Tilt upper limit (`self.max_tilt = 55.0`). -/
def max_tilt : ℚ := 55

/-- Tilt lower limit (`self.min_tilt = -55.0`). -/
def min_tilt : ℚ := -55

/-- The mutable node state of `CombinedTeleopNode`: velocity intent
(`x, y, z, th`), the scale factors (`speed`, `turn`) and the PTU angles
(`pan_angle`, `tilt_angle`). -/
structure RobotState where
  x : Int
  y : Int
  z : Int
  th : Int
  speed : ℚ
  turn : ℚ
  pan_angle : ℚ
  tilt_angle : ℚ
  deriving Repr, DecidableEq

/-- The state set up by `CombinedTeleopNode.__init__`: zero intent,
`speed = 0.5`, `turn = 1.0`, PTU angles zero. -/
def initState : RobotState :=
  { x := 0, y := 0, z := 0, th := 0, speed := 1/2, turn := 1,
    pan_angle := 0, tilt_angle := 0 }

/-- Model of `get_key` on the bytes that are ready on stdin within the
0.1 s `select` window: no byte ready gives the empty token; otherwise one
byte is read, and if it is the escape byte `\x1b` the next two bytes are
appended. -/
def get_key (avail : List Char) : String :=
  match avail with
  | [] => ""
  | c :: rest =>
    if c = '\x1b' then String.mk (c :: rest.take 2) else String.mk [c]

/-- The "Robot Control Logic" block of one main-loop iteration:
`if key in MOVE_BINDINGS … elif key in SPEED_BINDINGS … else …`.
Returns the updated state and the `break` signal. The quit check
`key == 'q' or key == '\x03'` sits inside the final `else` branch, so it
is only reached by tokens in neither table. -/
def robotControl (s : RobotState) (key : String) : RobotState × Bool :=
  match MOVE_BINDINGS.lookup key with
  | some (mx, my, mz, mth) =>
    ({ s with x := mx, y := my, z := mz, th := mth }, false)
  | none =>
    match SPEED_BINDINGS.lookup key with
    | some (lf, af) =>
      ({ s with speed := s.speed * lf, turn := s.turn * af }, false)
    | none =>
      let s1 :=
        if (PTU_BINDINGS.lookup key).isNone && key ≠ " " then
          { s with x := 0, y := 0, z := 0, th := 0 }
        else s
      (s1, key = "q" || key = "\x03")

/-- The "PTU Control Logic" block of one main-loop iteration:
`if key in PTU_BINDINGS … elif key == ' ' …`, with the post-increment
clamp `max(min_pan, min(max_pan, pan_angle))` (and likewise for tilt). -/
def ptuControl (s : RobotState) (key : String) : RobotState :=
  match PTU_BINDINGS.lookup key with
  | some (dp, dt) =>
    let pan := s.pan_angle + (dp : ℚ) * ptu_step
    let tilt := s.tilt_angle + (dt : ℚ) * ptu_step
    { s with pan_angle := max min_pan (min max_pan pan),
             tilt_angle := max min_tilt (min max_tilt tilt) }
  | none =>
    if key = " " then { s with pan_angle := 0, tilt_angle := 0 } else s

/-- One iteration of the main loop body on a decoded token: robot control
logic first; if it signalled `break`, the iteration stops there (the PTU
block is not reached), otherwise the PTU control logic runs. Returns the
new state and whether the loop terminates. -/
def stepIter (s : RobotState) (key : String) : RobotState × Bool :=
  let r := robotControl s key
  if r.2 then (r.1, true) else (ptuControl r.1 key, false)

/-- A `geometry_msgs/Twist` message. -/
structure TwistMsg where
  lin_x : ℚ
  lin_y : ℚ
  lin_z : ℚ
  ang_x : ℚ
  ang_y : ℚ
  ang_z : ℚ
  deriving Repr, DecidableEq

/-- Default-constructed `Twist()`: every component is zero. -/
def TwistMsg.zero : TwistMsg :=
  { lin_x := 0, lin_y := 0, lin_z := 0, ang_x := 0, ang_y := 0, ang_z := 0 }

/-- A `pan_tilt_msgs/PanTiltCmdDeg` message. -/
structure PanTiltCmdDegMsg where
  speed : Int
  yaw : ℚ
  pitch : ℚ
  deriving Repr, DecidableEq

/-- The Twist built by `publish_commands`: start from `Twist()` and assign
each field as the source does. -/
def twistOf (s : RobotState) : TwistMsg :=
  { TwistMsg.zero with
    lin_x := (s.x : ℚ) * s.speed,
    lin_y := (s.y : ℚ) * s.speed,
    lin_z := (s.z : ℚ) * s.speed,
    ang_x := 0,
    ang_y := 0,
    ang_z := (s.th : ℚ) * s.turn }

/-- The PTU command built by `publish_commands`: `speed = 30`,
`yaw = pan_angle`, `pitch = tilt_angle`. -/
def ptuCmdOf (s : RobotState) : PanTiltCmdDegMsg :=
  { speed := 30, yaw := s.pan_angle, pitch := s.tilt_angle }

/-- Observable events of the program: publishing a message on either
topic, and the teardown actions of the `finally` block. -/
inductive Event where
  | publishTwist (m : TwistMsg)
  | publishPtu (m : PanTiltCmdDegMsg)
  | restoreTerminal
  | destroyNode
  | shutdownBus
  deriving Repr, DecidableEq

/-- One timer tick (`publish_commands`): emits the Twist and the PTU
command, both computed purely from the current state. -/
def publish_commands (s : RobotState) : List Event :=
  [Event.publishTwist (twistOf s), Event.publishPtu (ptuCmdOf s)]

/-- Model of `stop_robot`: publishes a default-constructed (all-zero)
Twist. -/
def stop_robot : List Event :=
  [Event.publishTwist TwistMsg.zero]

/-- How the main loop ended: a clean `break` on the quit token, or an
exception caught by the top-level handler. -/
inductive ExitKind where
  | cleanQuit
  | fault
  deriving Repr, DecidableEq

/-- The `finally` block of `main`: `node.stop_robot()`, then restore the
terminal attributes, destroy the node, shut down the bus. -/
def teardown : List Event :=
  [Event.publishTwist TwistMsg.zero, Event.restoreTerminal,
   Event.destroyNode, Event.shutdownBus]

/-- The full event trace of `main`: whatever the loop emitted, followed by
the `finally` teardown — the same teardown on both exit kinds, since a
`finally` block runs after a normal `break` and after a caught exception
alike. -/
def mainTrace (loopEvents : List Event) (ek : ExitKind) : List Event :=
  match ek with
  | ExitKind.cleanQuit => loopEvents ++ teardown
  | ExitKind.fault => loopEvents ++ teardown

/-- Whether an event is a publish of the all-zero-velocity Twist. -/
def isStopEvent : Event → Bool
  | Event.publishTwist m => m = TwistMsg.zero
  | _ => false

/-- Whether an event releases a resource (terminal restore, node
destruction, bus shutdown). -/
def isReleaseEvent : Event → Bool
  | Event.restoreTerminal => true
  | Event.destroyNode => true
  | Event.shutdownBus => true
  | _ => false

/-- A state whose pan angle already sits at the lower clamp limit;
reachable, e.g. by 28 presses of the pan-decrease arrow. -/
def ptuCexState : RobotState := { initState with pan_angle := -55 }

/-- A state with both scale factors equal to 1. -/
def unitScaleState : RobotState := { initState with speed := 1, turn := 1 }

/-- Helper: one press of a speed token multiplies the scale factors by the
table's factors and changes nothing else. -/
theorem speed_scale_step (key : String) (lf af : ℚ)
    (h : (key, (lf, af)) ∈ SPEED_BINDINGS) (s : RobotState) :
    (stepIter s key).1 = { s with speed := s.speed * lf, turn := s.turn * af } := by
  fin_cases h <;> rfl

/-- Helper: clamping a value already inside the range is the identity. -/
theorem clamp_eq_self (lo hi p : ℚ) (h1 : lo ≤ p) (h2 : p ≤ hi) :
    max lo (min hi p) = p := by
  rw [min_eq_right h2, max_eq_right h1]

/-- Helper: clamping after an increment moves an in-range value by at most
the increment's magnitude. -/
theorem abs_clamp_sub_le (lo hi p d : ℚ) (h1 : lo ≤ p) (h2 : p ≤ hi) :
    |max lo (min hi (p + d)) - p| ≤ |d| := by
  rcases le_total 0 d with hd | hd
  · rw [abs_of_nonneg hd, abs_le]
    constructor
    · have hge : p ≤ min hi (p + d) := le_min h2 (by linarith)
      have := le_trans hge (le_max_right lo (min hi (p + d)))
      linarith
    · have hle : max lo (min hi (p + d)) ≤ p + d :=
        max_le (by linarith) (min_le_right _ _)
      linarith
  · rw [abs_of_nonpos hd, abs_le]
    constructor
    · have hmin : min hi (p + d) = p + d := min_eq_right (by linarith)
      have : p + d ≤ max lo (min hi (p + d)) := by
        rw [hmin]; exact le_max_right _ _
      linarith
    · have : max lo (min hi (p + d)) ≤ p :=
        max_le h1 (le_trans (min_le_right _ _) (by linarith))
      linarith

/-- Helper: the state after a PTU token, as the source computes it. -/
theorem ptu_step_eq (key : String) (dp dt : Int)
    (h : (key, (dp, dt)) ∈ PTU_BINDINGS) (s : RobotState) :
    (stepIter s key).1 =
      { s with
        pan_angle := max min_pan (min max_pan (s.pan_angle + (dp : ℚ) * ptu_step)),
        tilt_angle := max min_tilt (min max_tilt (s.tilt_angle + (dt : ℚ) * ptu_step)) } := by
  fin_cases h <;> rfl

/-- Helper: every PTU table delta component is 0, 1 or -1. -/
theorem ptu_delta_cases (key : String) (dp dt : Int)
    (h : (key, (dp, dt)) ∈ PTU_BINDINGS) :
    (dp = 0 ∨ dp = 1 ∨ dp = -1) ∧ (dt = 0 ∨ dt = 1 ∨ dt = -1) := by
  fin_cases h <;> refine ⟨by decide, by decide⟩

/-- Helper: robot control logic never touches the PTU angles. -/
theorem robotControl_ptu_unchanged (s : RobotState) (key : String) :
    (robotControl s key).1.pan_angle = s.pan_angle ∧
    (robotControl s key).1.tilt_angle = s.tilt_angle := by
  unfold robotControl
  cases MOVE_BINDINGS.lookup key with
  | some v => obtain ⟨mx, my, mz, mth⟩ := v; exact ⟨rfl, rfl⟩
  | none =>
    cases SPEED_BINDINGS.lookup key with
    | some p => obtain ⟨lf, af⟩ := p; exact ⟨rfl, rfl⟩
    | none =>
      dsimp only
      split <;> exact ⟨rfl, rfl⟩

/-- Helper: PTU control logic keeps in-range angles in range. -/
theorem ptuControl_range (s : RobotState) (key : String)
    (hp1 : min_pan ≤ s.pan_angle) (hp2 : s.pan_angle ≤ max_pan)
    (ht1 : min_tilt ≤ s.tilt_angle) (ht2 : s.tilt_angle ≤ max_tilt) :
    min_pan ≤ (ptuControl s key).pan_angle ∧ (ptuControl s key).pan_angle ≤ max_pan ∧
    min_tilt ≤ (ptuControl s key).tilt_angle ∧ (ptuControl s key).tilt_angle ≤ max_tilt := by
  unfold ptuControl
  cases PTU_BINDINGS.lookup key with
  | some d =>
    obtain ⟨dp, dt⟩ := d
    dsimp only
    refine ⟨le_max_left _ _, ?_, le_max_left _ _, ?_⟩
    · exact max_le (by norm_num [min_pan, max_pan]) (min_le_left _ _)
    · exact max_le (by norm_num [min_tilt, max_tilt]) (min_le_left _ _)
  | none =>
    dsimp only
    split
    · norm_num [min_pan, max_pan, min_tilt, max_tilt]
    · exact ⟨hp1, hp2, ht1, ht2⟩

/-- Helper: the pan angle after n presses of the pan-decrease arrow from
the initial state. -/
theorem pan_decrease_iter (n : ℕ) :
    ((fun t => (stepIter t "\x1b[C").1)^[n] initState).pan_angle =
      max (-55 : ℚ) (-(2 * n)) := by
  induction n with
  | zero => simp [initState]
  | succ k ih =>
    rw [Function.iterate_succ_apply']
    have hstep : ∀ t : RobotState,
        (stepIter t "\x1b[C").1.pan_angle =
          max min_pan (min max_pan (t.pan_angle + ((-1 : Int) : ℚ) * ptu_step)) :=
      fun t => rfl
    rw [hstep, ih]
    have hk : (0 : ℚ) ≤ 2 * (k : ℚ) := by positivity
    rcases le_total (-(2 * (k : ℚ))) (-55) with h | h
    · rw [max_eq_left h]
      have h1 : min max_pan ((-55 : ℚ) + ((-1 : Int) : ℚ) * ptu_step) = -57 := by
        norm_num [max_pan, ptu_step]
      rw [h1]
      have h2 : max min_pan (-57 : ℚ) = -55 := by norm_num [min_pan]
      rw [h2]
      rw [max_eq_left]
      push_cast
      linarith
    · rw [max_eq_right h]
      have h1 : min max_pan (-(2 * (k : ℚ)) + ((-1 : Int) : ℚ) * ptu_step) =
          -(2 * (k : ℚ)) + ((-1 : Int) : ℚ) * ptu_step := by
        rw [min_eq_right]
        norm_num [max_pan, ptu_step]
        linarith
      rw [h1]
      have h2 : -(2 * (k : ℚ)) + ((-1 : Int) : ℚ) * ptu_step = -(2 * ((k : ℚ) + 1)) := by
        norm_num [ptu_step]
        ring
      rw [h2]
      push_cast
      rw [min_pan]

/-- Helper: n presses of a speed token multiply the scale factors by the
n-th power of the table's factors. -/
theorem speed_iterate (key : String) (lf af : ℚ)
    (h : (key, (lf, af)) ∈ SPEED_BINDINGS) :
    ∀ (n : ℕ) (s : RobotState),
      ((fun t => (stepIter t key).1)^[n] s).speed = s.speed * lf ^ n ∧
      ((fun t => (stepIter t key).1)^[n] s).turn = s.turn * af ^ n := by
  intro n
  induction n with
  | zero => intro s; simp
  | succ k ih =>
    intro s
    rw [Function.iterate_succ_apply, speed_scale_step key lf af h s]
    obtain ⟨ihs, iht⟩ := ih { s with speed := s.speed * lf, turn := s.turn * af }
    rw [ihs, iht]
    dsimp only
    constructor <;> ring

/-- C1: processing the token 'q' does NOT signal loop termination — 'q' is
a member of the speed table, so the `elif` captures it (multiplying both
scale factors by 1.1) and the quit check nested inside the final `else`
branch is unreachable for it; only the interrupt token 0x03 terminates the
loop. This contradicts the claim and the source's own comment and printed
instructions ("CTRL-C or q to quit"). -/
theorem quit_check_unreachable_for_q :
    (∀ s : RobotState, (stepIter s "q").2 = false) ∧
    (∀ s : RobotState, (stepIter s "\x03").2 = true) ∧
    (stepIter initState "q").1.speed = 11/20 ∧
    (stepIter initState "q").1.turn = 11/10 := by
  refine ⟨fun s => rfl, fun s => rfl, ?_, ?_⟩
  · show initState.speed * (11/10 : ℚ) = 11/20
    norm_num [initState]
  · show initState.turn * (11/10 : ℚ) = 11/10
    norm_num [initState]

/-- C2: a token in none of the three tables and distinct from space zeroes
all four velocity-intent components and leaves the scale factors and PTU
angles unchanged (the record-update equality pins every other field of the
state), while a token of the speed table does not trigger the stop clause:
its update leaves the intent vector unchanged. -/
theorem unbound_token_zeroes_intent (s : RobotState) (key spKey : String) (lf af : ℚ)
    (hm : MOVE_BINDINGS.lookup key = none)
    (hs : SPEED_BINDINGS.lookup key = none)
    (hp : PTU_BINDINGS.lookup key = none)
    (hsp : key ≠ " ")
    (hspeed : (spKey, (lf, af)) ∈ SPEED_BINDINGS) :
    (stepIter s key).1 = { s with x := 0, y := 0, z := 0, th := 0 } ∧
    ((stepIter s spKey).1.x = s.x ∧ (stepIter s spKey).1.y = s.y ∧
     (stepIter s spKey).1.z = s.z ∧ (stepIter s spKey).1.th = s.th) := by
  constructor
  · unfold stepIter robotControl
    simp only [hm, hs]
    split
    · simp [hp, hsp]
    · simp [ptuControl, hp, hsp]
  · fin_cases hspeed <;> exact ⟨rfl, rfl, rfl, rfl⟩

/-- Witness for C2 at the unbound token 'k' and the speed token 'w'. -/
theorem unbound_token_zeroes_intent_witness :
    (stepIter initState "k").1 = { initState with x := 0, y := 0, z := 0, th := 0 } ∧
    ((stepIter initState "w").1.x = initState.x ∧ (stepIter initState "w").1.y = initState.y ∧
     (stepIter initState "w").1.z = initState.z ∧ (stepIter initState "w").1.th = initState.th) :=
  unbound_token_zeroes_intent initState "k" "w" (11/10) 1
    (by decide) (by decide) (by decide) (by decide)
    (List.Mem.tail _ (List.Mem.tail _ (List.Mem.head _)))

/-- C3: with no input byte ready within the poll timeout the decoded token
is the empty string, and the empty token zeroes the velocity intent while
leaving scale factors and PTU angles unchanged, without terminating the
loop — the implicit dead-man behavior. -/
theorem empty_token_zeroes_intent :
    get_key [] = "" ∧
    ∀ s : RobotState,
      (stepIter s "").1 = { s with x := 0, y := 0, z := 0, th := 0 } ∧
      (stepIter s "").2 = false :=
  ⟨rfl, fun _ => ⟨rfl, rfl⟩⟩

/-- C4: a speed-table token multiplies the linear scale by the table's
linear factor and the angular scale by its angular factor; n repeated
presses compose multiplicatively (n-th power), and two 'q' presses from
scales (1, 1) yield exactly (1.21, 1.21) in exact arithmetic. -/
theorem speed_token_multiplicative (key : String) (lf af : ℚ)
    (h : (key, (lf, af)) ∈ SPEED_BINDINGS) (s : RobotState) :
    ((stepIter s key).1.speed = s.speed * lf ∧ (stepIter s key).1.turn = s.turn * af) ∧
    (∀ n : ℕ,
      ((fun t => (stepIter t key).1)^[n] s).speed = s.speed * lf ^ n ∧
      ((fun t => (stepIter t key).1)^[n] s).turn = s.turn * af ^ n) ∧
    ((stepIter (stepIter unitScaleState "q").1 "q").1.speed = 121/100 ∧
     (stepIter (stepIter unitScaleState "q").1 "q").1.turn = 121/100) := by
  refine ⟨?_, fun n => speed_iterate key lf af h n s, ?_, ?_⟩
  · rw [speed_scale_step key lf af h s]
    exact ⟨rfl, rfl⟩
  · show unitScaleState.speed * (11/10 : ℚ) * (11/10 : ℚ) = 121/100
    norm_num [unitScaleState, initState]
  · show unitScaleState.turn * (11/10 : ℚ) * (11/10 : ℚ) = 121/100
    norm_num [unitScaleState, initState]

/-- Witness for C4 at the token 'q' and the initial state. -/
theorem speed_token_multiplicative_witness :
    ((stepIter initState "q").1.speed = initState.speed * (11/10) ∧
     (stepIter initState "q").1.turn = initState.turn * (11/10)) ∧
    (∀ n : ℕ,
      ((fun t => (stepIter t "q").1)^[n] initState).speed = initState.speed * (11/10) ^ n ∧
      ((fun t => (stepIter t "q").1)^[n] initState).turn = initState.turn * (11/10) ^ n) ∧
    ((stepIter (stepIter unitScaleState "q").1 "q").1.speed = 121/100 ∧
     (stepIter (stepIter unitScaleState "q").1 "q").1.turn = 121/100) :=
  speed_token_multiplicative "q" (11/10) (11/10) (List.Mem.head _) initState

/-- C5: one update step keeps both PTU angles inside [-55, 55] whenever
they start inside it (the clamp is applied after each increment), and 40
presses of the pan-decrease arrow from the initial pan of 0 leave pan at
exactly -55, not -80. -/
theorem ptu_angles_clamped :
    (∀ (s : RobotState) (key : String),
      min_pan ≤ s.pan_angle → s.pan_angle ≤ max_pan →
      min_tilt ≤ s.tilt_angle → s.tilt_angle ≤ max_tilt →
      min_pan ≤ (stepIter s key).1.pan_angle ∧
      (stepIter s key).1.pan_angle ≤ max_pan ∧
      min_tilt ≤ (stepIter s key).1.tilt_angle ∧
      (stepIter s key).1.tilt_angle ≤ max_tilt) ∧
    ((fun t => (stepIter t "\x1b[C").1)^[40] initState).pan_angle = -55 := by
  constructor
  · intro s key hp1 hp2 ht1 ht2
    obtain ⟨e1, e2⟩ := robotControl_ptu_unchanged s key
    unfold stepIter
    dsimp only
    split
    · rw [e1, e2]
      exact ⟨hp1, hp2, ht1, ht2⟩
    · exact ptuControl_range _ key (e1 ▸ hp1) (e1 ▸ hp2) (e2 ▸ ht1) (e2 ▸ ht2)
  · rw [pan_decrease_iter 40]
    norm_num

/-- Witness for C5's invariant at the initial state and the up-arrow
token. -/
theorem ptu_angles_clamped_witness :
    min_pan ≤ (stepIter initState "\x1b[A").1.pan_angle ∧
    (stepIter initState "\x1b[A").1.pan_angle ≤ max_pan ∧
    min_tilt ≤ (stepIter initState "\x1b[A").1.tilt_angle ∧
    (stepIter initState "\x1b[A").1.tilt_angle ≤ max_tilt :=
  ptu_angles_clamped.1 initState "\x1b[A"
    (by norm_num [initState, min_pan]) (by norm_num [initState, max_pan])
    (by norm_num [initState, min_tilt]) (by norm_num [initState, max_tilt])

/-- C6: every publisher tick, computed purely from the current state,
emits a velocity message whose linear components are the intent components
scaled by the linear scale, whose angular.z is the yaw intent scaled by
the angular scale and whose angular.x and angular.y are 0, followed by a
pan-tilt message with speed 30, yaw the pan angle and pitch the tilt
angle. -/
theorem tick_publishes_from_state (s : RobotState) :
    publish_commands s =
      [Event.publishTwist
        { lin_x := (s.x : ℚ) * s.speed, lin_y := (s.y : ℚ) * s.speed,
          lin_z := (s.z : ℚ) * s.speed, ang_x := 0, ang_y := 0,
          ang_z := (s.th : ℚ) * s.turn },
       Event.publishPtu { speed := 30, yaw := s.pan_angle, pitch := s.tilt_angle }] :=
  rfl

/-- C7: on both exit kinds — clean quit and caught fault — the trace of
`main` ends with the same `finally` teardown, which contains exactly one
zero-velocity stop publish, and the events preceding the first
resource-release event are exactly that one stop publish. -/
theorem teardown_single_stop (loopEvents : List Event) (ek : ExitKind) :
    mainTrace loopEvents ek = loopEvents ++ teardown ∧
    List.countP isStopEvent teardown = 1 ∧
    List.takeWhile (fun e => !isReleaseEvent e) teardown =
      [Event.publishTwist TwistMsg.zero] := by
  refine ⟨?_, by decide, by decide⟩
  cases ek <;> rfl

/-- C8: a movement-table token overwrites the four-component velocity
intent with exactly the table's tuple and leaves every other state field —
scale factors and PTU angles — unchanged (record-update equality), and
does not terminate the loop. -/
theorem move_token_overwrites_intent (key : String) (mx my mz mth : Int)
    (h : (key, (mx, my, mz, mth)) ∈ MOVE_BINDINGS) (s : RobotState) :
    (stepIter s key).1 = { s with x := mx, y := my, z := mz, th := mth } ∧
    (stepIter s key).2 = false := by
  fin_cases h <;> exact ⟨rfl, rfl⟩

/-- Witness for C8 at the token 'i'. -/
theorem move_token_overwrites_intent_witness :
    (stepIter initState "i").1 = { initState with x := 1, y := 0, z := 0, th := 0 } ∧
    (stepIter initState "i").2 = false :=
  move_token_overwrites_intent "i" 1 0 0 0 (List.Mem.head _) initState

/-- C9: the space token sets both PTU angles to 0 regardless of their
prior values. -/
theorem space_resets_ptu (s : RobotState) :
    (stepIter s " ").1.pan_angle = 0 ∧ (stepIter s " ").1.tilt_angle = 0 :=
  ⟨rfl, rfl⟩

/-- C10 counterexample: at a state whose pan already sits at the clamp
limit -55, the pan-decrease arrow token (a member of the PTU table)
changes neither pan nor tilt, so the step does not change "exactly one" of
the two PTU angles as the claim states. -/
theorem ptu_no_angle_changes_at_limit :
    ("\x1b[C", ((-1 : Int), (0 : Int))) ∈ PTU_BINDINGS ∧
    (stepIter ptuCexState "\x1b[C").1.pan_angle = ptuCexState.pan_angle ∧
    (stepIter ptuCexState "\x1b[C").1.tilt_angle = ptuCexState.tilt_angle := by
  refine ⟨by decide, ?_, ?_⟩
  · show max min_pan (min max_pan (ptuCexState.pan_angle + ((-1 : Int) : ℚ) * ptu_step)) =
      ptuCexState.pan_angle
    norm_num [ptuCexState, initState, min_pan, max_pan, ptu_step]
  · show max min_tilt (min max_tilt (ptuCexState.tilt_angle + ((0 : Int) : ℚ) * ptu_step)) =
      ptuCexState.tilt_angle
    norm_num [ptuCexState, initState, min_tilt, max_tilt, ptu_step]

/-- C10 amended: for a PTU-table token and a state whose angles lie within
[-55, 55], one update step leaves the velocity intent and both scale
factors unchanged, leaves the angle whose table delta is zero unchanged
(so at most one of pan and tilt changes), and moves each angle by at most
the 2.0-degree step in magnitude. -/
theorem ptu_token_frame_effect (key : String) (dp dt : Int)
    (h : (key, (dp, dt)) ∈ PTU_BINDINGS) (s : RobotState)
    (hp1 : min_pan ≤ s.pan_angle) (hp2 : s.pan_angle ≤ max_pan)
    (ht1 : min_tilt ≤ s.tilt_angle) (ht2 : s.tilt_angle ≤ max_tilt) :
    ((stepIter s key).1.x = s.x ∧ (stepIter s key).1.y = s.y ∧
     (stepIter s key).1.z = s.z ∧ (stepIter s key).1.th = s.th) ∧
    ((stepIter s key).1.speed = s.speed ∧ (stepIter s key).1.turn = s.turn) ∧
    (dp = 0 → (stepIter s key).1.pan_angle = s.pan_angle) ∧
    (dt = 0 → (stepIter s key).1.tilt_angle = s.tilt_angle) ∧
    |(stepIter s key).1.pan_angle - s.pan_angle| ≤ ptu_step ∧
    |(stepIter s key).1.tilt_angle - s.tilt_angle| ≤ ptu_step := by
  obtain ⟨hdp, hdt⟩ := ptu_delta_cases key dp dt h
  rw [ptu_step_eq key dp dt h s]
  refine ⟨⟨rfl, rfl, rfl, rfl⟩, ⟨rfl, rfl⟩, ?_, ?_, ?_, ?_⟩
  · intro h0
    rw [h0]
    dsimp only
    norm_num
    exact clamp_eq_self _ _ _ hp1 hp2
  · intro h0
    rw [h0]
    dsimp only
    norm_num
    exact clamp_eq_self _ _ _ ht1 ht2
  · dsimp only
    refine le_trans
      (abs_clamp_sub_le min_pan max_pan s.pan_angle ((dp : ℚ) * ptu_step) hp1 hp2) ?_
    rcases hdp with h0 | h0 | h0 <;> rw [h0] <;> norm_num [ptu_step]
  · dsimp only
    refine le_trans
      (abs_clamp_sub_le min_tilt max_tilt s.tilt_angle ((dt : ℚ) * ptu_step) ht1 ht2) ?_
    rcases hdt with h0 | h0 | h0 <;> rw [h0] <;> norm_num [ptu_step]

/-- Witness for C10's amended claim at the up-arrow token and the initial
state. -/
theorem ptu_token_frame_effect_witness :
    ((stepIter initState "\x1b[A").1.x = initState.x ∧
     (stepIter initState "\x1b[A").1.y = initState.y ∧
     (stepIter initState "\x1b[A").1.z = initState.z ∧
     (stepIter initState "\x1b[A").1.th = initState.th) ∧
    ((stepIter initState "\x1b[A").1.speed = initState.speed ∧
     (stepIter initState "\x1b[A").1.turn = initState.turn) ∧
    ((0 : Int) = 0 → (stepIter initState "\x1b[A").1.pan_angle = initState.pan_angle) ∧
    ((-1 : Int) = 0 → (stepIter initState "\x1b[A").1.tilt_angle = initState.tilt_angle) ∧
    |(stepIter initState "\x1b[A").1.pan_angle - initState.pan_angle| ≤ ptu_step ∧
    |(stepIter initState "\x1b[A").1.tilt_angle - initState.tilt_angle| ≤ ptu_step :=
  ptu_token_frame_effect "\x1b[A" 0 (-1) (List.Mem.head _) initState
    (by norm_num [initState, min_pan]) (by norm_num [initState, max_pan])
    (by norm_num [initState, min_tilt]) (by norm_num [initState, max_tilt])
